import Mathlib

/-!
# hapi-users-plugin: authentication and session handlers

A shallow embedding of `src/lib/index.js`.  The plugin registers two
authentication strategies (cookie session, bearer token) and four implemented
route handlers (login, logout, registration, get-user).

Every handler is a chain of asynchronous calls into external systems (MongoDB,
catbox cache, bcrypt, jsonwebtoken).  The embedding makes each of them
explicit:

* the `users` collection and the cache are passed in and returned as values;
* what an external call answers that is not determined by the state (an error,
  the bcrypt result, the id the driver assigns, the process environment) is
  read from an `Env` record; so are the two library functions the code calls
  on strings, `String.prototype.toLowerCase` and the driver's `ObjectID`
  constructor, so that every general theorem holds for the real ones;
* every external call a handler makes is logged, in order, in `Result.ops`.
-/

namespace HapiUsers

/-! ## Data model -/

/-- An error object handed to a callback as first argument (`null` is `none`). -/
structure Err where
  message : String
deriving DecidableEq, Repr

/-- A document of the `users` collection.  `_id` is the string form of the
ObjectID; `password` is `none` when the field is absent (after
`delete user.password` or the projection `password: 0`); `extra` holds the
deployment-defined extra fields. -/
structure User where
  _id : String
  username : String
  password : Option String
  extra : List (String × String)
deriving DecidableEq, Repr

/-- The value stored in the session cache: an object with one field `account`. -/
structure Cached where
  account : User
deriving DecidableEq, Repr

/-- The session cache (one catbox policy): key/value entries, newest first. -/
abbrev Cache := List (String × Cached)

/-- The plugin options read by `exports.register`; `none` is `undefined`. -/
structure Options where
  cache_name : String
  cookie_name : String
  expire : Option Nat
  session : Option Bool
  token : Option Bool
  session_private_key : String
  /-- the Joi schemas of the extra registration fields, as the predicate they
  put on the extra keys of a payload -/
  extra_fields : Option (List (String × String) → Bool)

/-- The session cookie content, also `request.auth.artifacts` of the session
strategy. -/
structure Artifacts where
  sid : String
deriving DecidableEq, Repr

/-- The part of `request.auth` the handlers read. -/
structure Auth where
  isAuthenticated : Bool
  artifacts : Artifacts
deriving DecidableEq, Repr

/-- Payload of `POST /api/users/session` (`token` is optional). -/
structure SessionPayload where
  username : String
  password : String
  token : Option Bool
deriving DecidableEq, Repr

/-- Payload of `POST /api/users`: `create_payload` plus the extra fields. -/
structure CreatePayload where
  username : String
  password : String
  extra : List (String × String)
deriving DecidableEq, Repr

/-- Path parameters of `GET /api/users/{username}`. -/
structure Params where
  username : String
deriving DecidableEq, Repr

structure SessionRequest where
  auth : Auth
  payload : SessionPayload
deriving DecidableEq, Repr

structure UnsessionRequest where
  auth : Auth
deriving DecidableEq, Repr

structure CreateRequest where
  auth : Auth
  payload : CreatePayload
deriving DecidableEq, Repr

structure GetUserRequest where
  auth : Auth
  params : Params
deriving DecidableEq, Repr

/-- A signed token.  `jsonwebtoken` is external; the signature is idealised as
the record of the secret the token was signed with. -/
structure Token where
  _id : String
  expiresIn : Nat
  signedWith : String
deriving DecidableEq, Repr

/-- Arguments `(error, res)` that `bcrypt.compare` hands to its callback;
`res = none` is `undefined`.  bcrypt answers `(null, true)`, `(null, false)`
or `(err, undefined)`. -/
structure CompareResult where
  error : Option Err
  res : Option Bool
deriving DecidableEq, Repr

/-- A query document given to `findOne`. -/
inductive Query where
  | username (name : String)
  | _id (id : String)
deriving DecidableEq, Repr

/-- The external calls a handler or strategy can make. -/
inductive Op where
  | findOne (query : Query) (excludePassword : Bool)
  | insert (doc : CreatePayload)
  | bcryptCompare (data : String) (hash : Option String)
  | bcryptHash (data : String) (rounds : Nat)
  | jwtSign (id : String) (key : String) (expiresIn : Nat)
  | cacheGet (key : String)
  | cacheSet (key : String) (value : Cached) (ttl : Nat)
  | cacheDrop (key : String)
  | cookieSet (session : Artifacts)
  | cookieClear
deriving DecidableEq, Repr

/-- What the external systems answer during one request. -/
structure Env where
  /-- the error `findOne` reports, if any -/
  findOneError : Option Err
  /-- the error `insert` reports, if any -/
  insertError : Option Err
  /-- the `_id` the driver assigns to an inserted document -/
  insertedId : String
  /-- the callback arguments of `bcrypt.compare(data, hash, cb)` -/
  compare : String → Option String → CompareResult
  /-- the outcome of `bcrypt.hash(data, rounds, cb)` -/
  hash : String → Nat → Except Err String
  cacheGetError : Option Err
  cacheSetError : Option Err
  cacheDropError : Option Err
  /-- the value of `process.env.SESSION_PRIVATE_KEY` -/
  SESSION_PRIVATE_KEY : String
  /-- the runtime function `String.prototype.toLowerCase` -/
  toLowerCase : String → String
  /-- the driver constructor `new ObjectID(id)`: it throws on a malformed id,
  and otherwise yields an id, given here in its string form -/
  ObjectID : String → Except Err String

/-- A response body; one constructor per object literal passed to `response`. -/
inductive Body where
  | error (error : String)
  | errorUserCreated (error : String) (userCreated : Bool)
  | token (token : Token)
  | loggedIn (loggedIn : Bool)
  | loggedOut (loggedOut : Bool)
  | userCreated (userCreated : Bool)
  | user (user : User)
deriving DecidableEq, Repr

structure Response where
  body : Body
  code : Nat
deriving DecidableEq, Repr

/-- What one handler run leaves behind. -/
structure Result where
  response : Response
  users : List User
  cache : Cache
  ops : List Op
deriving DecidableEq, Repr

/-- Arguments `(err, isValid, credentials)` a `validateFunc` hands to its callback. -/
inductive Credentials where
  | undefined
  | empty
  | account (user : User)
deriving DecidableEq, Repr

structure Validation where
  error : Option Err
  isValid : Bool
  credentials : Credentials
deriving DecidableEq, Repr

/-- How a run of a `validateFunc` ends: an exception thrown before the callback
is reached, or one call of the callback. -/
inductive Outcome where
  | throws (error : Err)
  | callback (validation : Validation)
deriving DecidableEq, Repr

/-! ## External primitives -/

/-- What `String.prototype.toLowerCase` computes on an ASCII string: the
letters `A` to `Z` are lowered.  Used for the concrete inputs only, all of
them ASCII. -/
def toLowerCaseASCII (s : String) : String := ⟨s.data.map Char.toLower⟩

/-- A hexadecimal digit, of either case. -/
def isHexDigit (c : Char) : Bool :=
  c.isDigit || (decide (97 ≤ c.toNat) && decide (c.toNat ≤ 102))
    || (decide (65 ≤ c.toNat) && decide (c.toNat ≤ 70))

/-- The two hexadecimal digits of one byte. -/
def hexByte (c : Char) : List Char :=
  [Nat.digitChar (c.toNat / 16 % 16), Nat.digitChar (c.toNat % 16)]

/-- The driver's `new ObjectID(id)` on a string: 24 hexadecimal digits are read
as the id (whose string form is in lower case), 12 characters are taken as the
12 raw bytes, and anything else throws.  Used for the concrete inputs only. -/
def driverObjectID (id : String) : Except Err String :=
  if id.data.length == 24 && id.data.all isHexDigit then
    .ok (toLowerCaseASCII id)
  else if id.data.length == 12 then
    .ok ⟨id.data.flatMap hexByte⟩
  else
    .error
      ⟨"Argument passed in must be a single String of 12 bytes or a string of 24 hex characters"⟩

/-- The projection `password: 0`, and `delete user.password`. -/
def User.withoutPassword (user : User) : User := { user with password := none }

def Query.selects : Query → User → Bool
  | .username name, user => user.username == name
  | ._id id, user => user._id == id

/-- `collection.findOne(query, projection, cb)`: the callback arguments
`(error, user)`; exact, case-sensitive match, first document in store order. -/
def findOne (error : Option Err) (users : List User) (query : Query)
    (excludePassword : Bool) : Option Err × Option User :=
  match error with
  | some e => (some e, none)
  | none =>
    (none, (users.find? query.selects).map
      (fun user => if excludePassword then user.withoutPassword else user))

/-- `collection.insert(doc, cb)`: the driver adds the `_id` and appends. -/
def insert (error : Option Err) (insertedId : String) (users : List User)
    (doc : CreatePayload) : Option Err × List User :=
  match error with
  | some e => (some e, users)
  | none => (none, users ++ [⟨insertedId, doc.username, some doc.password, doc.extra⟩])

/-- `cache.get(key, cb)`: the callback arguments `(error, cached)`. -/
def cacheGet (error : Option Err) (cache : Cache) (key : String) :
    Option Err × Option Cached :=
  match error with
  | some e => (some e, none)
  | none => (none, cache.lookup key)

/-- `cache.set(key, value, ttl, cb)`: replaces the entry of `key`. -/
def cacheSet (error : Option Err) (cache : Cache) (key : String) (value : Cached) :
    Option Err × Cache :=
  match error with
  | some e => (some e, cache)
  | none => (none, (key, value) :: cache.filter (fun entry => entry.1 != key))

/-- `cache.drop(key, cb)`: removes the entry of `key`. -/
def cacheDrop (error : Option Err) (cache : Cache) (key : String) :
    Option Err × Cache :=
  match error with
  | some e => (some e, cache)
  | none => (none, cache.filter (fun entry => entry.1 != key))

/-- `jwt.sign(claims, key, options)`. -/
def jwtSign (id : String) (key : String) (expiresIn : Nat) : Token :=
  ⟨id, expiresIn, key⟩

/-- `jwt.verify(token, key)`: the signature check of the token scheme. -/
def jwtVerify (key : String) (token : Token) : Bool :=
  token.signedWith == key

/-- The schema `create_payload` (lines 21-35): `username` alphanumeric, 3 to
30 characters; `password` a non-empty string; no further key, unless
`options.extra_fields` is defined, which then decides on the further keys. -/
def create_payload (options : Options) (payload : CreatePayload) : Bool :=
  payload.username.data.all Char.isAlphanum
    && decide (3 ≤ payload.username.data.length)
    && decide (payload.username.data.length ≤ 30)
    && payload.password.data != []
    && (match options.extra_fields with
        | none => payload.extra.isEmpty
        | some accepts => accepts payload.extra)

/-! ## The plugin -/

/-- The value `(typeof options.expire !== 'undefined') ? options.expire : 60 * 60 * 24 * 365`. -/
def expiresIn (options : Options) : Nat :=
  match options.expire with
  | some expire => expire
  | none => 60 * 60 * 24 * 365

/-- The session strategy's `validateFunc` (lines 53-65). -/
def sessionValidateFunc (env : Env) (cache : Cache) (session : Artifacts) : Validation :=
  match cacheGet env.cacheGetError cache session.sid with
  | (some error, _) => ⟨some error, false, .undefined⟩
  | (none, none) => ⟨none, false, .undefined⟩
  | (none, some cached) => ⟨none, true, .account cached.account⟩

/-- The token strategy's `validateFunc` (lines 73-89).  `new ObjectID(token._id)`
is evaluated while the query is built: when it throws, `findOne` is not
reached and the callback is never called. -/
def tokenValidateFunc (env : Env) (users : List User) (token : Token) : Outcome :=
  match env.ObjectID token._id with
  | .error thrown => .throws thrown
  | .ok id =>
    match findOne env.findOneError users (._id id) true with
    | (some error, _) => .callback ⟨some error, false, .empty⟩
    | (none, none) => .callback ⟨none, false, .empty⟩
    | (none, some user) => .callback ⟨none, true, .account user⟩

/-- The token strategy as configured on line 72: the token is verified under
`options.session_private_key`, then `validateFunc` decides. -/
def tokenStrategy (options : Options) (env : Env) (users : List User) (token : Token) :
    Outcome :=
  if options.token == some true && jwtVerify options.session_private_key token then
    tokenValidateFunc env users token
  else
    .callback ⟨none, false, .undefined⟩

/-- The handler of `POST /api/users/session` (lines 98-165). -/
def sessionHandler (options : Options) (env : Env) (users : List User) (cache : Cache)
    (request : SessionRequest) : Result :=
  if !request.auth.isAuthenticated then
    let payload := request.payload
    let query := Query.username (env.toLowerCase payload.username)
    match findOne env.findOneError users query false with
    | (some _, _) =>
      ⟨⟨.error "Database error.", 500⟩, users, cache, [.findOne query false]⟩
    | (none, none) =>
      ⟨⟨.error "Username or Password is incorrect", 401⟩, users, cache,
        [.findOne query false]⟩
    | (none, some user) =>
      let cb := env.compare payload.password user.password
      if cb.error.isSome && !(cb.res == some true) then
        ⟨⟨.error "Username or Password is incorrect", 401⟩, users, cache,
          [.findOne query false, .bcryptCompare payload.password user.password]⟩
      else
        let user1 := user.withoutPassword
        if payload.token == some true then
          let token := jwtSign user1._id env.SESSION_PRIVATE_KEY (expiresIn options)
          ⟨⟨.token token, 200⟩, users, cache,
            [.findOne query false, .bcryptCompare payload.password user.password,
             .jwtSign user1._id env.SESSION_PRIVATE_KEY (expiresIn options)]⟩
        else
          let usersid := env.toLowerCase user1.username ++ "" ++ user1._id
          match cacheSet env.cacheSetError cache usersid ⟨user1⟩ with
          | (some _, cache1) =>
            ⟨⟨.error "Session failed.", 500⟩, users, cache1,
              [.findOne query false, .bcryptCompare payload.password user.password,
               .cacheSet usersid ⟨user1⟩ 0]⟩
          | (none, cache1) =>
            ⟨⟨.loggedIn true, 200⟩, users, cache1,
              [.findOne query false, .bcryptCompare payload.password user.password,
               .cacheSet usersid ⟨user1⟩ 0, .cookieSet ⟨usersid⟩]⟩
  else
    ⟨⟨.error "Already authenticated.", 401⟩, users, cache, []⟩

/-- The handler of `GET /api/users/unsession` (lines 195-215). -/
def unsessionHandler (env : Env) (users : List User) (cache : Cache)
    (request : UnsessionRequest) : Result :=
  if request.auth.isAuthenticated then
    match cacheDrop env.cacheDropError cache request.auth.artifacts.sid with
    | (some _, cache1) =>
      ⟨⟨.error "Session failed.", 500⟩, users, cache1,
        [.cacheDrop request.auth.artifacts.sid]⟩
    | (none, cache1) =>
      ⟨⟨.loggedOut true, 200⟩, users, cache1,
        [.cacheDrop request.auth.artifacts.sid, .cookieClear]⟩
  else
    ⟨⟨.error "Not authenticated.", 401⟩, users, cache, []⟩

/-- The handler of `POST /api/users` (lines 235-288). -/
def createHandler (env : Env) (users : List User) (cache : Cache)
    (request : CreateRequest) : Result :=
  if request.auth.isAuthenticated then
    let payload := request.payload
    let query := Query.username (env.toLowerCase payload.username)
    match findOne env.findOneError users query true with
    | (some _, _) =>
      ⟨⟨.errorUserCreated "Database error." false, 500⟩, users, cache,
        [.findOne query true]⟩
    | (none, some _) =>
      ⟨⟨.errorUserCreated "Username already exists." false, 409⟩, users, cache,
        [.findOne query true]⟩
    | (none, none) =>
      match env.hash payload.password 10 with
      | .error _ =>
        ⟨⟨.errorUserCreated "Could not create user." false, 500⟩, users, cache,
          [.findOne query true, .bcryptHash payload.password 10]⟩
      | .ok hash =>
        let payload1 : CreatePayload := { payload with password := hash }
        match insert env.insertError env.insertedId users payload1 with
        | (some _, users1) =>
          ⟨⟨.errorUserCreated "Could not create user." false, 500⟩, users1, cache,
            [.findOne query true, .bcryptHash payload.password 10, .insert payload1]⟩
        | (none, users1) =>
          ⟨⟨.userCreated true, 200⟩, users1, cache,
            [.findOne query true, .bcryptHash payload.password 10, .insert payload1]⟩
  else
    ⟨⟨.error "Not authenticated", 401⟩, users, cache, []⟩

/-- The handler of `GET /api/users/{username}` (lines 317-344). -/
def getUserHandler (env : Env) (users : List User) (cache : Cache)
    (request : GetUserRequest) : Result :=
  if request.auth.isAuthenticated then
    let query := Query.username (env.toLowerCase request.params.username)
    match findOne env.findOneError users query true with
    | (some _, _) =>
      ⟨⟨.errorUserCreated "Database error." false, 500⟩, users, cache,
        [.findOne query true]⟩
    | (none, none) =>
      ⟨⟨.error "User does not exist.", 404⟩, users, cache, [.findOne query true]⟩
    | (none, some user) =>
      ⟨⟨.user user, 200⟩, users, cache, [.findOne query true]⟩
  else
    ⟨⟨.error "Not authenticated", 401⟩, users, cache, []⟩

/-! ## Observations on results -/

/-- The `password` fields a response body carries. -/
def Body.passwords : Body → List String
  | .user account => account.password.toList
  | _ => []

/-- The password of the document a query selects, if there is one. -/
def storedPassword (users : List User) (query : Query) : Option String :=
  (users.find? query.selects).bind User.password

/-- The environment in which `bcrypt.compare` gives one fixed answer. -/
def Env.answering (env : Env) (answer : CompareResult) : Env :=
  { env with compare := fun _ _ => answer }

/-! ## Concrete inputs -/

/-- A toy bcrypt: the hash of `data` is `data` behind a fixed salt header, and
`compare` reports a match exactly for such a hash. -/
def bcryptEnv (sessionPrivateKey : String) : Env where
  findOneError := none
  insertError := none
  insertedId := "507f1f77bcf86cd799439011"
  compare := fun data hash => ⟨none, some (hash == some ("$2a$10$" ++ data))⟩
  hash := fun data _ => .ok ("$2a$10$" ++ data)
  cacheGetError := none
  cacheSetError := none
  cacheDropError := none
  SESSION_PRIVATE_KEY := sessionPrivateKey
  toLowerCase := toLowerCaseASCII
  ObjectID := driverObjectID

/-- Options with both strategies enabled and the default expiry. -/
def bothStrategies (sessionPrivateKey : String) : Options where
  cache_name := "mongoCache"
  cookie_name := "session"
  expire := none
  session := some true
  token := some true
  session_private_key := sessionPrivateKey
  extra_fields := none

/-- A stored user `alice` whose password hash is that of `secret123`. -/
def alice : User where
  _id := "507f191e810c19729de860ea"
  username := "alice"
  password := some "$2a$10$secret123"
  extra := []

def anonymous : Auth := ⟨false, ⟨""⟩⟩

/-- The environment of a second request: as `bcryptEnv`, with the next id. -/
def bcryptEnvNext (sessionPrivateKey : String) : Env :=
  { bcryptEnv sessionPrivateKey with insertedId := "507f1f77bcf86cd799439012" }

/-- A registration payload accepted by `create_payload`, with capital letters. -/
def registerAlice : CreatePayload := ⟨"Alice", "secret123", []⟩

def loggedInAs (sid : String) : Auth := ⟨true, ⟨sid⟩⟩

/-- An environment whose store lookup fails. -/
def storeDown : Env := { bcryptEnv "s3cret" with findOneError := some ⟨"connection lost"⟩ }

/-! ## Supporting lemmas -/

/-- Removing the entries of `key` leaves the lookup of any other key as it was. -/
theorem lookup_filter_ne (cache : Cache) (key k : String) (h : k ≠ key) :
    (cache.filter (fun entry => entry.1 != key)).lookup k = cache.lookup k := by
  induction cache with
  | nil => rfl
  | cons entry rest ih =>
    obtain ⟨a, b⟩ := entry
    by_cases hak : a = key
    · subst hak
      have hk : (k == a) = false := by simpa using h
      simp [List.filter, List.lookup, hk, ih]
    · have : (a != key) = true := by simpa using hak
      simp only [List.filter, this, List.lookup]
      rw [ih]

/-- After removing the entries of `key`, the lookup of `key` finds nothing. -/
theorem lookup_filter_self (cache : Cache) (key : String) :
    (cache.filter (fun entry => entry.1 != key)).lookup key = none := by
  induction cache with
  | nil => rfl
  | cons entry rest ih =>
    obtain ⟨a, b⟩ := entry
    by_cases hak : a = key
    · subst hak
      simp [List.filter, ih]
    · have h1 : (a != key) = true := by simpa using hak
      have h2 : (key == a) = false := by simpa using (fun h => hak h.symm)
      simp only [List.filter, h1, List.lookup, h2]
      exact ih

/-- Removing the entries of a key that has none changes nothing. -/
theorem filter_of_lookup_none (cache : Cache) (key : String)
    (h : cache.lookup key = none) :
    cache.filter (fun entry => entry.1 != key) = cache := by
  induction cache with
  | nil => rfl
  | cons entry rest ih =>
    obtain ⟨a, b⟩ := entry
    by_cases hak : key = a
    · subst hak
      simp [List.lookup] at h
    · have h2 : (key == a) = false := by simpa using hak
      have h1 : (a != key) = true := by simpa using (fun h => hak h.symm)
      simp only [List.lookup, h2] at h
      simp only [List.filter, h1, ih h]

/-- The entries of `key` and the other entries make up the cache. -/
theorem length_filter_ne_add (cache : Cache) (key : String) :
    (cache.filter (fun entry => entry.1 != key)).length
      + (cache.filter (fun entry => entry.1 == key)).length = cache.length := by
  induction cache with
  | nil => rfl
  | cons entry rest ih =>
    by_cases h : entry.1 = key
    · have h1 : (entry.1 != key) = false := by simpa using h
      have h2 : (entry.1 == key) = true := by simpa using h
      simp only [List.filter, h1, h2, List.length_cons]
      omega
    · have h1 : (entry.1 != key) = true := by simpa using h
      have h2 : (entry.1 == key) = false := by simpa using h
      simp only [List.filter, h1, h2, List.length_cons]
      omega

/-- A key that is found has at least one entry. -/
theorem length_filter_pos_of_lookup (cache : Cache) (key : String)
    (h : (cache.lookup key).isSome = true) :
    0 < (cache.filter (fun entry => entry.1 == key)).length := by
  induction cache with
  | nil => simp at h
  | cons entry rest ih =>
    obtain ⟨a, b⟩ := entry
    by_cases hak : key = a
    · subst hak
      simp [List.filter]
    · have h2 : (key == a) = false := by simpa using hak
      have h1 : (a == key) = false := by simpa using (fun h => hak h.symm)
      simp only [List.lookup, h2] at h
      simp only [List.filter, h1]
      exact ih h

/-- When the `ObjectID` constructor throws on the token's subject id, the token
validation throws that exception and never calls back. -/
theorem tokenValidateFunc_malformed_id (env : Env) (users : List User) (token : Token)
    (thrown : Err) (hid : env.ObjectID token._id = .error thrown) :
    tokenValidateFunc env users token = .throws thrown := by
  simp [tokenValidateFunc, hid]

/-- No query looks at the password. -/
theorem selects_withoutPassword (query : Query) (user : User) :
    query.selects user.withoutPassword = query.selects user := by
  cases query <;> rfl

/-- Searching commutes with removing the passwords. -/
theorem find?_withoutPassword (query : Query) (users : List User) :
    (users.find? query.selects).map User.withoutPassword
      = (users.map User.withoutPassword).find? query.selects := by
  induction users with
  | nil => rfl
  | cons user rest ih =>
    simp only [List.map_cons, List.find?_cons, selects_withoutPassword]
    cases query.selects user <;> simp [ih]

/-- Searching the store without passwords finds the same document, without its
password. -/
theorem find?_map_withoutPassword (query : Query) (users : List User) :
    (users.map User.withoutPassword).find? query.selects
      = (users.find? query.selects).map User.withoutPassword :=
  (find?_withoutPassword query users).symm

/-- The login handler sees the stored passwords only through the answer of
`bcrypt.compare`: its response and the cache it leaves are those it gives on
the store without passwords when bcrypt is fixed to that answer. -/
theorem sessionHandler_erased (options : Options) (env : Env) (users : List User)
    (cache : Cache) (login : SessionRequest) :
    (sessionHandler options env users cache login).response
      = (sessionHandler options
          (env.answering (env.compare login.payload.password
            (storedPassword users (.username (env.toLowerCase login.payload.username)))))
          (users.map User.withoutPassword) cache login).response
    ∧ (sessionHandler options env users cache login).cache
      = (sessionHandler options
          (env.answering (env.compare login.payload.password
            (storedPassword users (.username (env.toLowerCase login.payload.username)))))
          (users.map User.withoutPassword) cache login).cache := by
  unfold sessionHandler
  cases hauth : login.auth.isAuthenticated with
  | true => exact ⟨rfl, rfl⟩
  | false =>
    cases he : env.findOneError with
    | some e => simp [findOne, Env.answering, he]
    | none =>
      cases hf : users.find?
          (Query.username (env.toLowerCase login.payload.username)).selects with
      | none =>
        have hfm : (users.map User.withoutPassword).find?
            (Query.username (env.toLowerCase login.payload.username)).selects = none := by
          rw [find?_map_withoutPassword, hf]
          rfl
        simp only [findOne, Env.answering, he, hf, hfm, Option.map_none', Bool.not_false,
          ite_true, and_self]
      | some u =>
        have hfm : (users.map User.withoutPassword).find?
            (Query.username (env.toLowerCase login.payload.username)).selects
            = some u.withoutPassword := by
          rw [find?_map_withoutPassword, hf]
          rfl
        have hstored : storedPassword users
            (.username (env.toLowerCase login.payload.username)) = u.password := by
          simp only [storedPassword, hf, Option.some_bind]
        simp only [findOne, Env.answering, he, hf, hfm, hstored,
          Option.map_some', Bool.false_eq_true, ite_false, Bool.not_false, ite_true]
        by_cases hguard : ((env.compare login.payload.password u.password).error.isSome
            && !((env.compare login.payload.password u.password).res == some true)) = true
        · simp [hguard]
        · simp only [hguard, ite_false, Bool.false_eq_true]
          by_cases htoken : (login.payload.token == some true) = true
          · simp [htoken, User.withoutPassword]
          · simp only [htoken, ite_false, Bool.false_eq_true]
            cases hset : env.cacheSetError <;> simp [cacheSet, hset, User.withoutPassword]

/-- The registration response is the one given on the store without passwords. -/
theorem createHandler_erased (env : Env) (users : List User) (cache : Cache)
    (create : CreateRequest) :
    (createHandler env users cache create).response
      = (createHandler env (users.map User.withoutPassword) cache create).response := by
  unfold createHandler
  cases hauth : create.auth.isAuthenticated with
  | false => rfl
  | true =>
    cases he : env.findOneError with
    | some e => simp [findOne]
    | none =>
      cases hf : users.find?
          (Query.username (env.toLowerCase create.payload.username)).selects with
      | none =>
        have hfm : (users.map User.withoutPassword).find?
            (Query.username (env.toLowerCase create.payload.username)).selects = none := by
          rw [find?_map_withoutPassword, hf]
          rfl
        simp only [findOne, hf, hfm, Option.map_none', ite_true]
        cases env.hash create.payload.password 10 with
        | error e => rfl
        | ok h => cases hi : env.insertError <;> simp [insert]
      | some u =>
        have hfm : (users.map User.withoutPassword).find?
            (Query.username (env.toLowerCase create.payload.username)).selects
            = some u.withoutPassword := by
          rw [find?_map_withoutPassword, hf]
          rfl
        simp only [findOne, hf, hfm, Option.map_some', ite_true]

/-- The logout handler does not read the store. -/
theorem unsessionHandler_any_store (env : Env) (users others : List User) (cache : Cache)
    (logout : UnsessionRequest) :
    (unsessionHandler env users cache logout).response
      = (unsessionHandler env others cache logout).response := by
  unfold unsessionHandler
  cases logout.auth.isAuthenticated with
  | false => rfl
  | true => cases env.cacheDropError <;> rfl

/-- The get-user response is the one given on the store without passwords. -/
theorem getUserHandler_erased (env : Env) (users : List User) (cache : Cache)
    (getUser : GetUserRequest) :
    (getUserHandler env users cache getUser).response
      = (getUserHandler env (users.map User.withoutPassword) cache getUser).response := by
  unfold getUserHandler
  cases hauth : getUser.auth.isAuthenticated with
  | false => rfl
  | true =>
    cases he : env.findOneError with
    | some e => simp [findOne]
    | none =>
      cases hf : users.find?
          (Query.username (env.toLowerCase getUser.params.username)).selects with
      | none =>
        have hfm : (users.map User.withoutPassword).find?
            (Query.username (env.toLowerCase getUser.params.username)).selects = none := by
          rw [find?_map_withoutPassword, hf]
          rfl
        simp only [findOne, hf, hfm, Option.map_none', ite_true]
      | some u =>
        have hfm : (users.map User.withoutPassword).find?
            (Query.username (env.toLowerCase getUser.params.username)).selects
            = some u.withoutPassword := by
          rw [find?_map_withoutPassword, hf]
          rfl
        simp only [findOne, hf, hfm, Option.map_some', ite_true]
        rfl

/-- Whenever `bcrypt.compare` reports no error, whatever its result, a login
without token flag whose user is found and whose cache write succeeds is
answered 200 with `loggedIn: true`: the guard `error && !res` only rejects
when an error is present. -/
theorem sessionHandler_compare_without_error (options : Options) (env : Env)
    (users : List User) (cache : Cache) (request : SessionRequest) (user : User)
    (hauth : request.auth.isAuthenticated = false)
    (hfind : findOne env.findOneError users
      (.username (env.toLowerCase request.payload.username)) false = (none, some user))
    (herror : (env.compare request.payload.password user.password).error = none)
    (htoken : request.payload.token = none ∨ request.payload.token = some false)
    (hset : env.cacheSetError = none) :
    (sessionHandler options env users cache request).response = ⟨.loggedIn true, 200⟩ := by
  have htok : (request.payload.token == some true) = false := by
    rcases htoken with h | h <;> simp [h]
  simp [sessionHandler, hauth, hfind, herror, htok, hset, cacheSet]

/-- A registration whose lower-cased username is stored verbatim is answered
409 and inserts nothing. -/
theorem createHandler_conflict (env : Env) (users : List User) (cache : Cache)
    (request : CreateRequest) (stored : User)
    (hauth : request.auth.isAuthenticated = true)
    (hfind : env.findOneError = none)
    (hstored : users.find? (fun user => user.username == env.toLowerCase request.payload.username)
      = some stored) :
    createHandler env users cache request
      = ⟨⟨.errorUserCreated "Username already exists." false, 409⟩, users, cache,
          [.findOne (.username (env.toLowerCase request.payload.username)) true]⟩ := by
  have hsel : users.find? (Query.username (env.toLowerCase request.payload.username)).selects
      = some stored := hstored
  simp [createHandler, hauth, findOne, hfind, hsel]

/-- Register then login succeeds for a username that is already lower-case. -/
theorem createHandler_then_sessionHandler_lowercase (options : Options) (env later : Env)
    (users : List User) (cache : Cache) (auth : Auth) (username password hash : String)
    (extra : List (String × String))
    (hlower : env.toLowerCase username = username)
    (hauth : auth.isAuthenticated = true)
    (hnew : users.find? (fun user => user.username == env.toLowerCase username) = none)
    (hfind : env.findOneError = none) (hhash : env.hash password 10 = .ok hash)
    (hinsert : env.insertError = none)
    (hlater : later.findOneError = none)
    (hruntime : later.toLowerCase = env.toLowerCase)
    (hmatch : later.compare password (some hash) = ⟨none, some true⟩)
    (hset : later.cacheSetError = none) :
    (createHandler env users cache ⟨auth, ⟨username, password, extra⟩⟩).response
      = ⟨.userCreated true, 200⟩
    ∧ (sessionHandler options later
        (createHandler env users cache ⟨auth, ⟨username, password, extra⟩⟩).users
        (createHandler env users cache ⟨auth, ⟨username, password, extra⟩⟩).cache
        ⟨⟨false, auth.artifacts⟩, ⟨username, password, none⟩⟩).response
      = ⟨.loggedIn true, 200⟩ := by
  have hsel : users.find? (Query.username (env.toLowerCase username)).selects = none := hnew
  have hrun : createHandler env users cache ⟨auth, ⟨username, password, extra⟩⟩
      = ⟨⟨.userCreated true, 200⟩, users ++ [⟨env.insertedId, username, some hash, extra⟩],
          cache,
          [.findOne (.username (env.toLowerCase username)) true, .bcryptHash password 10,
           .insert ⟨username, hash, extra⟩]⟩ := by
    simp [createHandler, hauth, findOne, hfind, hsel, hhash, insert, hinsert]
  rw [hrun]
  refine ⟨rfl, ?_⟩
  apply sessionHandler_compare_without_error options later _ _ _
    ⟨env.insertedId, username, some hash, extra⟩ rfl _ _ (Or.inl rfl) hset
  · have hlast : (Query.username (env.toLowerCase username)).selects
        ⟨env.insertedId, username, some hash, extra⟩ = true := by
      simp [Query.selects, hlower]
    simp [findOne, hlater, hruntime, List.find?_append, hsel, hlast]
  · simp [hmatch]

/-! ## Login -/

/-- C1 (code defect): a login for the stored user `alice` with the wrong
password `wrong`, where bcrypt reports `(null, false)`, is answered
200 with `loggedIn: true`, writes the cache entry of `alice` and sets the
cookie, whereas the same login for the unknown name `bob` is answered 401
`Username or Password is incorrect`. -/
theorem sessionHandler_wrong_password_accepted :
    (bcryptEnv "s3cret").compare "wrong" alice.password = ⟨none, some false⟩
    ∧ (sessionHandler (bothStrategies "s3cret") (bcryptEnv "s3cret") [alice] []
        ⟨anonymous, ⟨"alice", "wrong", none⟩⟩).response = ⟨.loggedIn true, 200⟩
    ∧ (sessionHandler (bothStrategies "s3cret") (bcryptEnv "s3cret") [alice] []
        ⟨anonymous, ⟨"alice", "wrong", none⟩⟩).cache
        = [("alice507f191e810c19729de860ea", ⟨alice.withoutPassword⟩)]
    ∧ Op.cookieSet ⟨"alice507f191e810c19729de860ea"⟩
        ∈ (sessionHandler (bothStrategies "s3cret") (bcryptEnv "s3cret") [alice] []
            ⟨anonymous, ⟨"alice", "wrong", none⟩⟩).ops
    ∧ (sessionHandler (bothStrategies "s3cret") (bcryptEnv "s3cret") [alice] []
        ⟨anonymous, ⟨"bob", "wrong", none⟩⟩).response
        = ⟨.error "Username or Password is incorrect", 401⟩ := by
  decide

/-- C4 as stated fails: `alice` logs in while the cache already holds her
session (written by a login from another client).  The user is found, the
password matches, there is no token flag and the cache write succeeds, yet the
cache holds one entry before and one entry after: it has not gained one. -/
theorem sessionHandler_repeat_login_same_size :
    findOne (bcryptEnv "s3cret").findOneError [alice]
        (.username ((bcryptEnv "s3cret").toLowerCase "alice")) false = (none, some alice)
    ∧ (bcryptEnv "s3cret").compare "secret123" alice.password = ⟨none, some true⟩
    ∧ (bcryptEnv "s3cret").cacheSetError = none
    ∧ (sessionHandler (bothStrategies "s3cret") (bcryptEnv "s3cret") [alice]
        [("alice507f191e810c19729de860ea", ⟨alice.withoutPassword⟩)]
        ⟨anonymous, ⟨"alice", "secret123", none⟩⟩).response = ⟨.loggedIn true, 200⟩
    ∧ (sessionHandler (bothStrategies "s3cret") (bcryptEnv "s3cret") [alice]
        [("alice507f191e810c19729de860ea", ⟨alice.withoutPassword⟩)]
        ⟨anonymous, ⟨"alice", "secret123", none⟩⟩).cache.length
      = [("alice507f191e810c19729de860ea", (⟨alice.withoutPassword⟩ : Cached))].length
    ∧ ¬ (sessionHandler (bothStrategies "s3cret") (bcryptEnv "s3cret") [alice]
        [("alice507f191e810c19729de860ea", ⟨alice.withoutPassword⟩)]
        ⟨anonymous, ⟨"alice", "secret123", none⟩⟩).cache.length
      = [("alice507f191e810c19729de860ea", (⟨alice.withoutPassword⟩ : Cached))].length + 1 := by
  decide

/-- C4, amended: for every unauthenticated login whose user is found (`findOne`
hands back `user`, a document of the store), whose password matches (bcrypt
answers `(null, true)`), whose token flag is absent or false and whose cache
write succeeds: the response is 200 with `loggedIn: true`; the handler makes
exactly one cache write, under the key `lowercase(user.username) ++ user._id`,
after which the cache holds exactly one entry under that key, with the value
`account: user` with the password removed and the other fields unchanged;
the entries that were under that key are replaced (the cache has one entry
more when the key was free, and no more entries than before when it was
taken) and every other key is untouched; the cookie is set to `sid:` that same
key; the store is unchanged.  This holds for every lower-casing function. -/
theorem sessionHandler_session_branch (options : Options) (env : Env) (users : List User)
    (cache : Cache) (request : SessionRequest) (user : User)
    (hauth : request.auth.isAuthenticated = false)
    (hfind : findOne env.findOneError users
      (.username (env.toLowerCase request.payload.username)) false = (none, some user))
    (hmatch : env.compare request.payload.password user.password = ⟨none, some true⟩)
    (htoken : request.payload.token = none ∨ request.payload.token = some false)
    (hset : env.cacheSetError = none) :
    user ∈ users
    ∧ (sessionHandler options env users cache request).response = ⟨.loggedIn true, 200⟩
    ∧ (sessionHandler options env users cache request).cache.lookup
        (env.toLowerCase user.username ++ user._id) = some ⟨user.withoutPassword⟩
    ∧ (∀ k, k ≠ env.toLowerCase user.username ++ user._id →
        (sessionHandler options env users cache request).cache.lookup k = cache.lookup k)
    ∧ ((sessionHandler options env users cache request).cache.filter
        (fun entry => entry.1 == env.toLowerCase user.username ++ user._id)).length = 1
    ∧ (sessionHandler options env users cache request).cache.length
        + (cache.filter
            (fun entry => entry.1 == env.toLowerCase user.username ++ user._id)).length
      = cache.length + 1
    ∧ (cache.lookup (env.toLowerCase user.username ++ user._id) = none →
        (sessionHandler options env users cache request).cache.length = cache.length + 1)
    ∧ ((cache.lookup (env.toLowerCase user.username ++ user._id)).isSome = true →
        (sessionHandler options env users cache request).cache.length ≤ cache.length)
    ∧ (sessionHandler options env users cache request).ops
        = [.findOne (.username (env.toLowerCase request.payload.username)) false,
           .bcryptCompare request.payload.password user.password,
           .cacheSet (env.toLowerCase user.username ++ user._id) ⟨user.withoutPassword⟩ 0,
           .cookieSet ⟨env.toLowerCase user.username ++ user._id⟩]
    ∧ (sessionHandler options env users cache request).users = users
    ∧ user.withoutPassword.password = none
    ∧ user.withoutPassword._id = user._id
    ∧ user.withoutPassword.username = user.username
    ∧ user.withoutPassword.extra = user.extra := by
  have htok : (request.payload.token == some true) = false := by
    rcases htoken with h | h <;> simp [h]
  have hmem : user ∈ users := by
    cases he : env.findOneError with
    | some e => simp [findOne, he] at hfind
    | none =>
      simp only [findOne, he, Prod.mk.injEq, true_and, ite_false, Bool.false_eq_true] at hfind
      cases hf : users.find?
          (Query.username (env.toLowerCase request.payload.username)).selects with
      | none => simp [hf] at hfind
      | some u =>
        simp [hf] at hfind
        subst hfind
        exact List.mem_of_find?_eq_some hf
  have hrun : sessionHandler options env users cache request
      = ⟨⟨.loggedIn true, 200⟩, users,
          (env.toLowerCase user.username ++ user._id, ⟨user.withoutPassword⟩)
            :: cache.filter
                (fun entry => entry.1 != env.toLowerCase user.username ++ user._id),
          [.findOne (.username (env.toLowerCase request.payload.username)) false,
           .bcryptCompare request.payload.password user.password,
           .cacheSet (env.toLowerCase user.username ++ user._id) ⟨user.withoutPassword⟩ 0,
           .cookieSet ⟨env.toLowerCase user.username ++ user._id⟩]⟩ := by
    simp [sessionHandler, hauth, hfind, hmatch, htok, hset, cacheSet, User.withoutPassword]
  have hcount := length_filter_ne_add cache (env.toLowerCase user.username ++ user._id)
  rw [hrun]
  refine ⟨hmem, rfl, ?_, ?_, ?_, ?_, ?_, ?_, rfl, rfl, rfl, rfl, rfl, rfl⟩
  · simp [List.lookup]
  · intro k hk
    have hk2 : (k == env.toLowerCase user.username ++ user._id) = false := by simpa using hk
    simp only [List.lookup, hk2]
    exact lookup_filter_ne cache _ k hk
  · simp [List.filter_cons, List.filter_filter]
  · simp only [List.length_cons]
    omega
  · intro hnone
    simp [filter_of_lookup_none cache _ hnone]
  · intro hsome
    have hpos := length_filter_pos_of_lookup cache _ hsome
    simp only [List.length_cons]
    omega

/-- The session branch at a concrete first login of `alice`, spelled `Alice`. -/
theorem sessionHandler_session_branch_witness :
    findOne (bcryptEnv "s3cret").findOneError [alice]
        (.username ((bcryptEnv "s3cret").toLowerCase "Alice")) false = (none, some alice)
    ∧ (sessionHandler (bothStrategies "s3cret") (bcryptEnv "s3cret") [alice] []
        ⟨anonymous, ⟨"Alice", "secret123", some false⟩⟩).response = ⟨.loggedIn true, 200⟩
    ∧ (sessionHandler (bothStrategies "s3cret") (bcryptEnv "s3cret") [alice] []
        ⟨anonymous, ⟨"Alice", "secret123", some false⟩⟩).cache.lookup
        "alice507f191e810c19729de860ea" = some ⟨alice.withoutPassword⟩ :=
  have h := sessionHandler_session_branch (bothStrategies "s3cret") (bcryptEnv "s3cret")
    [alice] [] ⟨anonymous, ⟨"Alice", "secret123", some false⟩⟩ alice
    (by decide) (by decide) (by decide) (by decide) (by decide)
  ⟨by decide, h.2.1, h.2.2.1⟩

/-- C5 (code defect): with the token strategy enabled and configured with the
secret `options-secret`, while the process environment holds `env-secret`, a
correct login of `alice` with `token: true` is answered 200 with a token for
the id of `alice` that is signed under `env-secret`; the token fails
verification under the strategy's secret, so the token strategy does not
authenticate it.  The login leaves the cache empty and sets no cookie. -/
theorem sessionHandler_token_signed_with_env_key :
    (bothStrategies "options-secret").token = some true
    ∧ (bcryptEnv "env-secret").compare "secret123" alice.password = ⟨none, some true⟩
    ∧ sessionHandler (bothStrategies "options-secret") (bcryptEnv "env-secret") [alice] []
        ⟨anonymous, ⟨"alice", "secret123", some true⟩⟩
      = ⟨⟨.token ⟨alice._id, 31536000, "env-secret"⟩, 200⟩, [alice], [],
          [.findOne (.username "alice") false,
           .bcryptCompare "secret123" alice.password,
           .jwtSign alice._id "env-secret" 31536000]⟩
    ∧ jwtVerify (bothStrategies "options-secret").session_private_key
        ⟨alice._id, 31536000, "env-secret"⟩ = false
    ∧ tokenStrategy (bothStrategies "options-secret") (bcryptEnv "env-secret") [alice]
        ⟨alice._id, 31536000, "env-secret"⟩ = .callback ⟨none, false, .undefined⟩
    ∧ tokenStrategy (bothStrategies "env-secret") (bcryptEnv "env-secret") [alice]
        ⟨alice._id, 31536000, "env-secret"⟩
      = .callback ⟨none, true, .account alice.withoutPassword⟩ := by
  decide

/-! ## Logout -/

/-- C6: for every cache and every session identifier the session strategy
currently accepts, a logout authenticated with it whose cache drop succeeds
leaves no cache entry under that identifier (there was one before) and leaves
every other key untouched, clears the cookie, answers 200 with
`loggedOut: true`, and the session strategy's validation of the same
identifier against the resulting cache reports not valid, whatever the later
cache lookup answers. -/
theorem unsessionHandler_drops_session (env later : Env) (users : List User) (cache : Cache)
    (request : UnsessionRequest)
    (haccepted : (sessionValidateFunc env cache request.auth.artifacts).isValid = true)
    (hauth : request.auth.isAuthenticated = true)
    (hdrop : env.cacheDropError = none) :
    (cache.lookup request.auth.artifacts.sid).isSome = true
    ∧ (unsessionHandler env users cache request).cache.lookup request.auth.artifacts.sid = none
    ∧ (∀ k, k ≠ request.auth.artifacts.sid →
        (unsessionHandler env users cache request).cache.lookup k = cache.lookup k)
    ∧ (unsessionHandler env users cache request).ops
        = [.cacheDrop request.auth.artifacts.sid, .cookieClear]
    ∧ (unsessionHandler env users cache request).response = ⟨.loggedOut true, 200⟩
    ∧ (unsessionHandler env users cache request).users = users
    ∧ (sessionValidateFunc later (unsessionHandler env users cache request).cache
        request.auth.artifacts).isValid = false := by
  have hrun : unsessionHandler env users cache request
      = ⟨⟨.loggedOut true, 200⟩, users,
          cache.filter (fun entry => entry.1 != request.auth.artifacts.sid),
          [.cacheDrop request.auth.artifacts.sid, .cookieClear]⟩ := by
    simp [unsessionHandler, hauth, hdrop, cacheDrop]
  have hheld : (cache.lookup request.auth.artifacts.sid).isSome = true := by
    cases he : env.cacheGetError with
    | some e => simp [sessionValidateFunc, cacheGet, he] at haccepted
    | none =>
      cases hl : cache.lookup request.auth.artifacts.sid with
      | none => simp [sessionValidateFunc, cacheGet, he, hl] at haccepted
      | some cached => rfl
  rw [hrun]
  refine ⟨hheld, lookup_filter_self cache _, fun k hk => lookup_filter_ne cache _ k hk,
    rfl, rfl, rfl, ?_⟩
  cases hl : later.cacheGetError with
  | some e => simp [sessionValidateFunc, cacheGet, hl]
  | none => simp [sessionValidateFunc, cacheGet, hl, lookup_filter_self]

/-- Logout at a concrete cache holding the session of `alice`. -/
theorem unsessionHandler_drops_session_witness :
    (sessionValidateFunc (bcryptEnv "s3cret")
        [("alice507f191e810c19729de860ea", ⟨alice.withoutPassword⟩)]
        ⟨"alice507f191e810c19729de860ea"⟩).isValid = true
    ∧ (unsessionHandler (bcryptEnv "s3cret") [alice]
        [("alice507f191e810c19729de860ea", ⟨alice.withoutPassword⟩)]
        ⟨loggedInAs "alice507f191e810c19729de860ea"⟩).response = ⟨.loggedOut true, 200⟩
    ∧ (sessionValidateFunc (bcryptEnv "s3cret")
        (unsessionHandler (bcryptEnv "s3cret") [alice]
          [("alice507f191e810c19729de860ea", ⟨alice.withoutPassword⟩)]
          ⟨loggedInAs "alice507f191e810c19729de860ea"⟩).cache
        ⟨"alice507f191e810c19729de860ea"⟩).isValid = false :=
  have h := unsessionHandler_drops_session (bcryptEnv "s3cret") (bcryptEnv "s3cret") [alice]
    [("alice507f191e810c19729de860ea", ⟨alice.withoutPassword⟩)]
    ⟨loggedInAs "alice507f191e810c19729de860ea"⟩ (by decide) (by decide) (by decide)
  ⟨by decide, h.2.2.2.2.1, h.2.2.2.2.2.2⟩

/-! ## Registration -/

/-- C2 (code defect): starting from the empty store, two registrations of the
schema-valid username `Alice` by an authenticated caller, one after the
other, are both answered 200 with `userCreated: true`, and the store then
holds two documents with the username `Alice`. -/
theorem createHandler_same_username_twice :
    create_payload (bothStrategies "s3cret") registerAlice = true
    ∧ (createHandler (bcryptEnv "s3cret") [] [] ⟨loggedInAs "root1", registerAlice⟩).response
        = ⟨.userCreated true, 200⟩
    ∧ (createHandler (bcryptEnvNext "s3cret")
        (createHandler (bcryptEnv "s3cret") [] [] ⟨loggedInAs "root1", registerAlice⟩).users
        (createHandler (bcryptEnv "s3cret") [] [] ⟨loggedInAs "root1", registerAlice⟩).cache
        ⟨loggedInAs "root1", registerAlice⟩).response = ⟨.userCreated true, 200⟩
    ∧ (createHandler (bcryptEnvNext "s3cret")
        (createHandler (bcryptEnv "s3cret") [] [] ⟨loggedInAs "root1", registerAlice⟩).users
        (createHandler (bcryptEnv "s3cret") [] [] ⟨loggedInAs "root1", registerAlice⟩).cache
        ⟨loggedInAs "root1", registerAlice⟩).users
        = [⟨"507f1f77bcf86cd799439011", "Alice", some "$2a$10$secret123", []⟩,
           ⟨"507f1f77bcf86cd799439012", "Alice", some "$2a$10$secret123", []⟩] := by
  decide

/-- C3 (code defect): from the empty store, an authenticated registration of
the schema-valid pair `Alice` / `secret123` is answered 200 with
`userCreated: true`; bcrypt matches `secret123` against the stored hash; yet
the following unauthenticated login with the same pair and no token flag is
answered 401 `Username or Password is incorrect`. -/
theorem createHandler_then_sessionHandler_capitals :
    create_payload (bothStrategies "s3cret") registerAlice = true
    ∧ createHandler (bcryptEnv "s3cret") [] [] ⟨loggedInAs "root1", registerAlice⟩
      = ⟨⟨.userCreated true, 200⟩,
          [⟨"507f1f77bcf86cd799439011", "Alice", some "$2a$10$secret123", []⟩], [],
          [.findOne (.username "alice") true, .bcryptHash "secret123" 10,
           .insert ⟨"Alice", "$2a$10$secret123", []⟩]⟩
    ∧ (bcryptEnvNext "s3cret").compare "secret123" (some "$2a$10$secret123")
        = ⟨none, some true⟩
    ∧ sessionHandler (bothStrategies "s3cret") (bcryptEnvNext "s3cret")
        [⟨"507f1f77bcf86cd799439011", "Alice", some "$2a$10$secret123", []⟩] []
        ⟨anonymous, ⟨"Alice", "secret123", none⟩⟩
      = ⟨⟨.error "Username or Password is incorrect", 401⟩,
          [⟨"507f1f77bcf86cd799439011", "Alice", some "$2a$10$secret123", []⟩], [],
          [.findOne (.username "alice") false]⟩ := by
  decide

/-- C9: for every authenticated registration whose lower-cased username matches
no stored user: if the existence check succeeds, `bcrypt.hash` with cost 10
yields `h` and the insert succeeds, the store gains exactly one document, the
payload with its password replaced by `h` (under the id the driver assigns),
and the answer is 200 with `userCreated: true`; if the existence check fails
or the hashing fails the answer is 500 with `userCreated: false` and the store
is unchanged; if the insert fails the answer is 500 with
`userCreated: false`. -/
theorem createHandler_new_username (env : Env) (users : List User) (cache : Cache)
    (request : CreateRequest)
    (hauth : request.auth.isAuthenticated = true)
    (hnew : users.find? (fun user => user.username == env.toLowerCase request.payload.username)
      = none) :
    (∀ h, env.findOneError = none → env.hash request.payload.password 10 = .ok h →
        env.insertError = none →
        createHandler env users cache request
          = ⟨⟨.userCreated true, 200⟩,
              users ++ [⟨env.insertedId, request.payload.username, some h,
                request.payload.extra⟩],
              cache,
              [.findOne (.username (env.toLowerCase request.payload.username)) true,
               .bcryptHash request.payload.password 10,
               .insert ⟨request.payload.username, h, request.payload.extra⟩]⟩)
    ∧ (∀ e, env.findOneError = some e →
        createHandler env users cache request
          = ⟨⟨.errorUserCreated "Database error." false, 500⟩, users, cache,
              [.findOne (.username (env.toLowerCase request.payload.username)) true]⟩)
    ∧ (∀ e, env.findOneError = none → env.hash request.payload.password 10 = .error e →
        createHandler env users cache request
          = ⟨⟨.errorUserCreated "Could not create user." false, 500⟩, users, cache,
              [.findOne (.username (env.toLowerCase request.payload.username)) true,
               .bcryptHash request.payload.password 10]⟩)
    ∧ (∀ h e, env.findOneError = none → env.hash request.payload.password 10 = .ok h →
        env.insertError = some e →
        (createHandler env users cache request).response
          = ⟨.errorUserCreated "Could not create user." false, 500⟩) := by
  have hsel : users.find? (Query.username (env.toLowerCase request.payload.username)).selects
      = none := hnew
  refine ⟨?_, ?_, ?_, ?_⟩
  · intro h hfind hhash hins
    simp [createHandler, hauth, findOne, hfind, hsel, hhash, insert, hins]
  · intro e hfind
    simp [createHandler, hauth, findOne, hfind]
  · intro e hfind hhash
    simp [createHandler, hauth, findOne, hfind, hsel, hhash]
  · intro h e hfind hhash hins
    simp [createHandler, hauth, findOne, hfind, hsel, hhash, insert, hins]

/-- Registration of `bob` next to `alice`, with a working and a failing store. -/
theorem createHandler_new_username_witness :
    createHandler (bcryptEnv "s3cret") [alice] [] ⟨loggedInAs "root1", ⟨"bob", "hunter2", []⟩⟩
      = ⟨⟨.userCreated true, 200⟩,
          [alice, ⟨"507f1f77bcf86cd799439011", "bob", some "$2a$10$hunter2", []⟩], [],
          [.findOne (.username "bob") true, .bcryptHash "hunter2" 10,
           .insert ⟨"bob", "$2a$10$hunter2", []⟩]⟩
    ∧ createHandler storeDown [alice] [] ⟨loggedInAs "root1", ⟨"bob", "hunter2", []⟩⟩
      = ⟨⟨.errorUserCreated "Database error." false, 500⟩, [alice], [],
          [.findOne (.username "bob") true]⟩ :=
  ⟨(createHandler_new_username (bcryptEnv "s3cret") [alice] []
      ⟨loggedInAs "root1", ⟨"bob", "hunter2", []⟩⟩ (by decide) (by decide)).1
      "$2a$10$hunter2" (by decide) rfl (by decide),
   (createHandler_new_username storeDown [alice] []
      ⟨loggedInAs "root1", ⟨"bob", "hunter2", []⟩⟩ (by decide) (by decide)).2.1
      ⟨"connection lost"⟩ (by decide)⟩

/-! ## Responses and gates -/

/-- C7: no response body carries a stored password hash, for every store,
cache, request and authentication state.  The login response and the cache it
leaves are those the handler gives on the store with every password removed,
once the one answer of `bcrypt.compare` is fixed; so two stores that differ
only in passwords and on which bcrypt answers alike get the same login
response.  The logout, registration and get-user responses are those given on
the store with every password removed, and are equal on two stores that
differ only in the password fields of their documents.  A user object
answered by get-user has no password, and no body has a password field. -/
theorem responses_carry_no_password (options : Options) (env : Env)
    (users others : List User) (cache : Cache) (login : SessionRequest)
    (logout : UnsessionRequest) (create : CreateRequest) (getUser : GetUserRequest)
    (hsame : users.map User.withoutPassword = others.map User.withoutPassword) :
    (sessionHandler options env users cache login).response
      = (sessionHandler options
          (env.answering (env.compare login.payload.password
            (storedPassword users (.username (env.toLowerCase login.payload.username)))))
          (users.map User.withoutPassword) cache login).response
    ∧ (sessionHandler options env users cache login).cache
      = (sessionHandler options
          (env.answering (env.compare login.payload.password
            (storedPassword users (.username (env.toLowerCase login.payload.username)))))
          (users.map User.withoutPassword) cache login).cache
    ∧ (env.compare login.payload.password
          (storedPassword users (.username (env.toLowerCase login.payload.username)))
        = env.compare login.payload.password
          (storedPassword others (.username (env.toLowerCase login.payload.username))) →
        (sessionHandler options env users cache login).response
          = (sessionHandler options env others cache login).response)
    ∧ (unsessionHandler env users cache logout).response
      = (unsessionHandler env (users.map User.withoutPassword) cache logout).response
    ∧ (createHandler env users cache create).response
      = (createHandler env (users.map User.withoutPassword) cache create).response
    ∧ (getUserHandler env users cache getUser).response
      = (getUserHandler env (users.map User.withoutPassword) cache getUser).response
    ∧ (unsessionHandler env users cache logout).response
      = (unsessionHandler env others cache logout).response
    ∧ (createHandler env users cache create).response
      = (createHandler env others cache create).response
    ∧ (getUserHandler env users cache getUser).response
      = (getUserHandler env others cache getUser).response
    ∧ (∀ user, (getUserHandler env users cache getUser).response.body = .user user →
        user.password = none)
    ∧ (sessionHandler options env users cache login).response.body.passwords = []
    ∧ (unsessionHandler env users cache logout).response.body.passwords = []
    ∧ (createHandler env users cache create).response.body.passwords = []
    ∧ (getUserHandler env users cache getUser).response.body.passwords = [] := by
  have hlogin := sessionHandler_erased options env users cache login
  have hlogin2 := sessionHandler_erased options env others cache login
  have hcreate := createHandler_erased env users cache create
  have hcreate2 := createHandler_erased env others cache create
  have hget := getUserHandler_erased env users cache getUser
  have hget2 := getUserHandler_erased env others cache getUser
  refine ⟨hlogin.1, hlogin.2, ?_, unsessionHandler_any_store env users _ cache logout,
    hcreate, hget, unsessionHandler_any_store env users others cache logout,
    ?_, ?_, ?_, ?_, ?_, ?_, ?_⟩
  · intro hanswer
    rw [hlogin.1, hlogin2.1, hsame, hanswer]
  · rw [hcreate, hcreate2, hsame]
  · rw [hget, hget2, hsame]
  · intro user
    rw [hget]
    unfold getUserHandler
    split
    · dsimp only
      cases he : env.findOneError with
      | some e => simp [findOne]
      | none =>
        simp only [findOne, ite_true]
        cases hf : (users.map User.withoutPassword).find?
            (Query.username (env.toLowerCase getUser.params.username)).selects with
        | none => simp
        | some u =>
          have hm := List.mem_of_find?_eq_some hf
          simp only [List.mem_map] at hm
          obtain ⟨v, _, rfl⟩ := hm
          intro h
          cases h
          rfl
    · intro h
      cases h
  · unfold sessionHandler
    split
    · dsimp only
      split
      · rfl
      · rfl
      · split
        · rfl
        · split
          · rfl
          · split <;> rfl
    · rfl
  · unfold unsessionHandler
    split
    · split <;> rfl
    · rfl
  · unfold createHandler
    split
    · dsimp only
      split
      · rfl
      · rfl
      · split
        · rfl
        · split <;> rfl
    · rfl
  · rw [hget]
    unfold getUserHandler
    split
    · dsimp only
      cases he : env.findOneError with
      | some e => rfl
      | none =>
        simp only [findOne, ite_true]
        cases hf : (users.map User.withoutPassword).find?
            (Query.username (env.toLowerCase getUser.params.username)).selects with
        | none => rfl
        | some u =>
          have hm := List.mem_of_find?_eq_some hf
          simp only [List.mem_map] at hm
          obtain ⟨v, _, rfl⟩ := hm
          rfl
    · rfl

/-- Login and get-user on two stores that differ in the password of `alice`,
for a login with a password that matches neither hash. -/
theorem responses_carry_no_password_witness :
    [alice].map User.withoutPassword
        = [{ alice with password := some "$2a$10$hunter2" }].map User.withoutPassword
    ∧ (getUserHandler (bcryptEnv "s3cret") [alice] [] ⟨loggedInAs "root1", ⟨"Alice"⟩⟩).response
        = ⟨.user alice.withoutPassword, 200⟩
    ∧ (getUserHandler (bcryptEnv "s3cret") [alice] [] ⟨loggedInAs "root1", ⟨"Alice"⟩⟩).response
        = (getUserHandler (bcryptEnv "s3cret") [{ alice with password := some "$2a$10$hunter2" }]
            [] ⟨loggedInAs "root1", ⟨"Alice"⟩⟩).response
    ∧ (sessionHandler (bothStrategies "s3cret") (bcryptEnv "s3cret") [alice] []
        ⟨anonymous, ⟨"alice", "wrong", none⟩⟩).response
        = (sessionHandler (bothStrategies "s3cret") (bcryptEnv "s3cret")
            [{ alice with password := some "$2a$10$hunter2" }] []
            ⟨anonymous, ⟨"alice", "wrong", none⟩⟩).response :=
  have h := responses_carry_no_password (bothStrategies "s3cret") (bcryptEnv "s3cret")
    [alice] [{ alice with password := some "$2a$10$hunter2" }] []
    ⟨anonymous, ⟨"alice", "wrong", none⟩⟩ ⟨anonymous⟩ ⟨anonymous, registerAlice⟩
    ⟨loggedInAs "root1", ⟨"Alice"⟩⟩ (by decide)
  ⟨by decide, by decide, h.2.2.2.2.2.2.2.2.1, h.2.2.1 (by decide)⟩

/-- C8: for every store and cache, the login handler answers 401 to a request
that is already authenticated, and the logout, registration and get-user
handlers answer 401 to a request that is not authenticated; in each case the
handler makes no external call at all (no store, cache, cookie, bcrypt or
token operation) and store and cache are unchanged. -/
theorem handlers_gate_on_authentication (options : Options) (env : Env) (users : List User)
    (cache : Cache) (login : SessionRequest) (logout : UnsessionRequest)
    (create : CreateRequest) (getUser : GetUserRequest)
    (hlogin : login.auth.isAuthenticated = true)
    (hlogout : logout.auth.isAuthenticated = false)
    (hcreate : create.auth.isAuthenticated = false)
    (hgetUser : getUser.auth.isAuthenticated = false) :
    sessionHandler options env users cache login
      = ⟨⟨.error "Already authenticated.", 401⟩, users, cache, []⟩
    ∧ unsessionHandler env users cache logout
      = ⟨⟨.error "Not authenticated.", 401⟩, users, cache, []⟩
    ∧ createHandler env users cache create
      = ⟨⟨.error "Not authenticated", 401⟩, users, cache, []⟩
    ∧ getUserHandler env users cache getUser
      = ⟨⟨.error "Not authenticated", 401⟩, users, cache, []⟩ := by
  refine ⟨?_, ?_, ?_, ?_⟩
  · simp [sessionHandler, hlogin]
  · simp [unsessionHandler, hlogout]
  · simp [createHandler, hcreate]
  · simp [getUserHandler, hgetUser]

/-- The four gates at concrete requests. -/
theorem handlers_gate_on_authentication_witness :
    sessionHandler (bothStrategies "s3cret") (bcryptEnv "s3cret") [alice] []
        ⟨loggedInAs "alice507f191e810c19729de860ea", ⟨"alice", "secret123", none⟩⟩
      = ⟨⟨.error "Already authenticated.", 401⟩, [alice], [], []⟩
    ∧ unsessionHandler (bcryptEnv "s3cret") [alice] [] ⟨anonymous⟩
      = ⟨⟨.error "Not authenticated.", 401⟩, [alice], [], []⟩
    ∧ createHandler (bcryptEnv "s3cret") [alice] [] ⟨anonymous, registerAlice⟩
      = ⟨⟨.error "Not authenticated", 401⟩, [alice], [], []⟩
    ∧ getUserHandler (bcryptEnv "s3cret") [alice] [] ⟨anonymous, ⟨"alice"⟩⟩
      = ⟨⟨.error "Not authenticated", 401⟩, [alice], [], []⟩ :=
  handlers_gate_on_authentication (bothStrategies "s3cret") (bcryptEnv "s3cret") [alice] []
    ⟨loggedInAs "alice507f191e810c19729de860ea", ⟨"alice", "secret123", none⟩⟩
    ⟨anonymous⟩ ⟨anonymous, registerAlice⟩ ⟨anonymous, ⟨"alice"⟩⟩
    (by decide) (by decide) (by decide) (by decide)

/-! ## Token strategy -/

/-- C10 as stated fails: for a token whose subject id is the well-formed id of
`alice`, when the store lookup of the token strategy's validation fails with
the error `connection lost`, the validation calls back with not valid, but the
error it hands to the framework's callback is that store error, not `null`. -/
theorem tokenValidateFunc_store_error_passed_on :
    storeDown.ObjectID alice._id = .ok alice._id
    ∧ storeDown.findOneError = some ⟨"connection lost"⟩
    ∧ tokenValidateFunc storeDown [alice] ⟨alice._id, 31536000, "s3cret"⟩
      = .callback ⟨some ⟨"connection lost"⟩, false, .empty⟩
    ∧ ¬ tokenValidateFunc storeDown [alice] ⟨alice._id, 31536000, "s3cret"⟩
      = .callback ⟨none, false, .empty⟩ := by
  refine ⟨rfl, ?_, ?_, ?_⟩ <;> decide

/-- C10, amended: for every token whose subject id the `ObjectID` constructor
accepts, the token strategy's validation looks the user up by that id with the
password excluded and calls back once: when the store lookup fails with `e`,
not valid, with `e` passed on as the callback's error and empty credentials;
when no such user exists, not valid with no error; otherwise valid, with no
error and the fetched user record (without its password) as credentials. -/
theorem tokenValidateFunc_outcomes (env : Env) (users : List User) (token : Token)
    (id : String) (hid : env.ObjectID token._id = .ok id) :
    (∀ e, env.findOneError = some e →
        tokenValidateFunc env users token = .callback ⟨some e, false, .empty⟩)
    ∧ (env.findOneError = none →
        users.find? (fun user => user._id == id) = none →
        tokenValidateFunc env users token = .callback ⟨none, false, .empty⟩)
    ∧ (∀ user, env.findOneError = none →
        users.find? (fun user => user._id == id) = some user →
        tokenValidateFunc env users token
          = .callback ⟨none, true, .account user.withoutPassword⟩) := by
  refine ⟨?_, ?_, ?_⟩
  · intro e he
    simp [tokenValidateFunc, hid, findOne, he]
  · intro he hf
    have hsel : users.find? (Query._id id).selects = none := hf
    simp [tokenValidateFunc, hid, findOne, he, hsel]
  · intro user he hf
    have hsel : users.find? (Query._id id).selects = some user := hf
    simp [tokenValidateFunc, hid, findOne, he, hsel]

/-- The three outcomes of the token validation at concrete inputs. -/
theorem tokenValidateFunc_outcomes_witness :
    tokenValidateFunc storeDown [alice] ⟨alice._id, 31536000, "s3cret"⟩
      = .callback ⟨some ⟨"connection lost"⟩, false, .empty⟩
    ∧ tokenValidateFunc (bcryptEnv "s3cret") [] ⟨alice._id, 31536000, "s3cret"⟩
      = .callback ⟨none, false, .empty⟩
    ∧ tokenValidateFunc (bcryptEnv "s3cret") [alice] ⟨alice._id, 31536000, "s3cret"⟩
      = .callback ⟨none, true, .account alice.withoutPassword⟩ :=
  ⟨(tokenValidateFunc_outcomes storeDown [alice] ⟨alice._id, 31536000, "s3cret"⟩
      alice._id rfl).1 ⟨"connection lost"⟩ (by decide),
   (tokenValidateFunc_outcomes (bcryptEnv "s3cret") [] ⟨alice._id, 31536000, "s3cret"⟩
      alice._id rfl).2.1 (by decide) (by decide),
   (tokenValidateFunc_outcomes (bcryptEnv "s3cret") [alice]
      ⟨alice._id, 31536000, "s3cret"⟩ alice._id rfl).2.2 alice (by decide) (by decide)⟩

end HapiUsers
